import Mathlib

/-!
Verification development for the TradeBot repository.

The repository's decision engine is embedded shallowly:

* `TradeBot.Bot`       models `src/bot/trade.py` (`LiveTradingBot`);
* `TradeBot.SBot`      models `src/Streamlit/bot.py` (`LiveTradingBot`);
* `TradeBot.Enh`       models `src/Streamlit/live_trading_bot_streamlit.py`
  (`EnhancedStrategy.next`, the in-position branch);
* `TradeBot.FixedExit` models `src/backtest/backtrader_test.py`
  (`FixedExitStrategy.next`, the in-position branch).

Prices, fractions and timestamps are rationals; timestamps are measured in
minutes, so Python's `(timestamp - entry_time).total_seconds() / 60` becomes
plain subtraction.  Python's `datetime.now()` is modelled by passing each call
result as an explicit argument.  Pandas data frames of bars are modelled as
lists of `(timestamp, close)` pairs, the last element being the latest bar.
-/

namespace TradeBot

/-- Action decided by `calculate_signals`: the strings BUY, SELL, HOLD. -/
inductive Signal
  | BUY
  | SELL
  | HOLD
deriving DecidableEq, Repr

/-- The `self.position` attribute: Python `None` or the string LONG. -/
inductive Position
  | flat
  | long
deriving DecidableEq, Repr

/-- Trade record type field: the strings BUY and SELL. -/
inductive TradeType
  | buy
  | sell
deriving DecidableEq, Repr

/-- Exit reason strings attached to SELL trade records. -/
inductive ExitReason
  | stopLoss
  | takeProfit
  | trailingStop
  | timeExit
  | manualStop
deriving DecidableEq, Repr

/-- One entry of the `self.trades` ledger list.  BUY rows carry no profit or
reason (`none`); SELL rows carry both. -/
structure Trade where
  ttype : TradeType
  price : ℚ
  timestamp : ℚ
  profit : Option ℚ
  reason : Option ExitReason
deriving DecidableEq, Repr

namespace Bot

/-- State of `LiveTradingBot` in `src/bot/trade.py`.  The percent fields hold
the values after the constructor's division by 100.  `entry_time = None` is
modelled as `0`: the field is read only while the position is LONG, and the
code always assigns it before setting the position to LONG. -/
structure BotState where
  stop_loss_percent : ℚ
  take_profit_percent : ℚ
  max_hold_minutes : ℚ
  interval_minutes : ℚ
  position : Position
  entry_price : ℚ
  entry_time : ℚ
  data : List (ℚ × ℚ)
  buy_signals : List (ℚ × ℚ)
  sell_signals : List (ℚ × ℚ)
  trades : List Trade
  is_running : Bool
deriving DecidableEq, Repr

/-- The constructor `LiveTradingBot.__init__` of `src/bot/trade.py`: divides the
percent arguments by 100, derives `interval_minutes` from the interval string
(`1` for one-minute bars, `15` otherwise), and performs no validation.
`is1m` stands for `interval == '1m'`. -/
def init (stop_loss_percent take_profit_percent max_hold_minutes : ℚ)
    (is1m : Bool) : BotState :=
  { stop_loss_percent := stop_loss_percent / 100
    take_profit_percent := take_profit_percent / 100
    max_hold_minutes := max_hold_minutes
    interval_minutes := if is1m then 1 else 15
    position := Position.flat
    entry_price := 0
    entry_time := 0
    data := []
    buy_signals := []
    sell_signals := []
    trades := []
    is_running := false }

/-- `LiveTradingBot.calculate_signals` of `src/bot/trade.py` (lines 40-53). -/
def calculate_signals (b : BotState) (current_price timestamp : ℚ) : Signal :=
  match b.position with
  | Position.flat => Signal.BUY
  | Position.long =>
    if current_price ≤ b.entry_price * (1 - b.stop_loss_percent) then
      Signal.SELL
    else if current_price ≥ b.entry_price * (1 + b.take_profit_percent) then
      Signal.SELL
    else if timestamp - b.entry_time ≥ b.max_hold_minutes * b.interval_minutes then
      Signal.SELL
    else
      Signal.HOLD

/-- `LiveTradingBot.execute_trade` of `src/bot/trade.py` (lines 55-77).  Note
that the SELL branch re-derives the exit reason by re-testing the thresholds,
checking take-profit before stop-loss. -/
def execute_trade (b : BotState) (signal : Signal) (current_price timestamp : ℚ) :
    BotState :=
  if signal = Signal.BUY ∧ b.position = Position.flat then
    { b with
      position := Position.long
      entry_price := current_price
      entry_time := timestamp
      buy_signals := b.buy_signals ++ [(timestamp, current_price)]
      trades := b.trades ++
        [{ ttype := TradeType.buy, price := current_price, timestamp := timestamp,
           profit := none, reason := none }] }
  else if signal = Signal.SELL ∧ b.position = Position.long then
    let profit := current_price - b.entry_price
    let exit_reason :=
      if current_price ≥ b.entry_price * (1 + b.take_profit_percent) then
        ExitReason.takeProfit
      else if current_price ≤ b.entry_price * (1 - b.stop_loss_percent) then
        ExitReason.stopLoss
      else
        ExitReason.timeExit
    { b with
      position := Position.flat
      sell_signals := b.sell_signals ++ [(timestamp, current_price)]
      trades := b.trades ++
        [{ ttype := TradeType.sell, price := current_price, timestamp := timestamp,
           profit := some profit, reason := some exit_reason }] }
  else
    b

/-- One iteration of the `LiveTradingBot.run` loop body of `src/bot/trade.py`
(lines 119-139), with chart plotting and CSV writing omitted as pure output.
`fetched = some l` models a successful `get_live_data` call that assigned
`self.data = l` (possibly empty); `fetched = none` models the call raising,
which leaves `self.data` unchanged.  The loop then reads the last row of
`self.data` when it is nonempty, computes the signal and executes the trade;
there is no guard comparing the bar's timestamp with previously processed
bars. -/
def runStep (b : BotState) (fetched : Option (List (ℚ × ℚ))) : BotState :=
  match fetched with
  | some l =>
    match l.getLast? with
    | some bar =>
      execute_trade { b with data := l }
        (calculate_signals { b with data := l } bar.2 bar.1) bar.2 bar.1
    | none => { b with data := l }
  | none =>
    match b.data.getLast? with
    | some bar => execute_trade b (calculate_signals b bar.2 bar.1) bar.2 bar.1
    | none => b

/-- `LiveTradingBot.stop` of `src/bot/trade.py` (lines 145-154).  The code calls
`datetime.now()` separately for the sell-signal entry (line 152) and for the
trade record (line 154); these two readings are the arguments `now1` and
`now2`. -/
def stop (b : BotState) (now1 now2 : ℚ) : BotState :=
  match b.data.getLast? with
  | some bar =>
    if b.position = Position.long then
      let current_price := bar.2
      let profit := current_price - b.entry_price
      { b with
        is_running := false
        position := Position.flat
        sell_signals := b.sell_signals ++ [(now1, current_price)]
        trades := b.trades ++
          [{ ttype := TradeType.sell, price := current_price, timestamp := now2,
             profit := some profit, reason := some ExitReason.manualStop }] }
    else
      { b with is_running := false }
  | none => { b with is_running := false }

end Bot

namespace SBot

/-- State of `LiveTradingBot` in `src/Streamlit/bot.py`.  This variant has no
`interval_minutes` attribute; otherwise the fields match `Bot.BotState`. -/
structure SBotState where
  stop_loss_percent : ℚ
  take_profit_percent : ℚ
  max_hold_minutes : ℚ
  position : Position
  entry_price : ℚ
  entry_time : ℚ
  data : List (ℚ × ℚ)
  buy_signals : List (ℚ × ℚ)
  sell_signals : List (ℚ × ℚ)
  trades : List Trade
  is_running : Bool
deriving DecidableEq, Repr

/-- The constructor `LiveTradingBot.__init__` of `src/Streamlit/bot.py`
(lines 17-30): divides the percent arguments by 100 and performs no
validation. -/
def init (stop_loss_percent take_profit_percent max_hold_minutes : ℚ) :
    SBotState :=
  { stop_loss_percent := stop_loss_percent / 100
    take_profit_percent := take_profit_percent / 100
    max_hold_minutes := max_hold_minutes
    position := Position.flat
    entry_price := 0
    entry_time := 0
    data := []
    buy_signals := []
    sell_signals := []
    trades := []
    is_running := false }

/-- `LiveTradingBot.calculate_signals` of `src/Streamlit/bot.py` (lines 51-65).
Unlike `Bot.calculate_signals`, the hold-time threshold is `max_hold_minutes`
itself, not scaled by an interval length. -/
def calculate_signals (b : SBotState) (current_price timestamp : ℚ) : Signal :=
  match b.position with
  | Position.flat => Signal.BUY
  | Position.long =>
    if current_price ≤ b.entry_price * (1 - b.stop_loss_percent) then
      Signal.SELL
    else if current_price ≥ b.entry_price * (1 + b.take_profit_percent) then
      Signal.SELL
    else if timestamp - b.entry_time ≥ b.max_hold_minutes then
      Signal.SELL
    else
      Signal.HOLD

/-- `LiveTradingBot.execute_trade` of `src/Streamlit/bot.py` (lines 67-86).
The SELL branch's re-derived reason is the two-way conditional of line 79:
Take Profit if `current_price >= entry_price * (1 + take_profit_percent)`,
otherwise Stop Loss; there is no Time Exit case.  The CSV write is pure
output and omitted. -/
def execute_trade (b : SBotState) (signal : Signal) (current_price timestamp : ℚ) :
    SBotState :=
  if signal = Signal.BUY ∧ b.position = Position.flat then
    { b with
      position := Position.long
      entry_price := current_price
      entry_time := timestamp
      buy_signals := b.buy_signals ++ [(timestamp, current_price)]
      trades := b.trades ++
        [{ ttype := TradeType.buy, price := current_price, timestamp := timestamp,
           profit := none, reason := none }] }
  else if signal = Signal.SELL ∧ b.position = Position.long then
    let profit := current_price - b.entry_price
    let exit_reason :=
      if current_price ≥ b.entry_price * (1 + b.take_profit_percent) then
        ExitReason.takeProfit
      else
        ExitReason.stopLoss
    { b with
      position := Position.flat
      sell_signals := b.sell_signals ++ [(timestamp, current_price)]
      trades := b.trades ++
        [{ ttype := TradeType.sell, price := current_price, timestamp := timestamp,
           profit := some profit, reason := some exit_reason }] }
  else
    b

/-- `LiveTradingBot.stop` of `src/Streamlit/bot.py` (lines 105-108): it only
clears the running flag and logs; it never closes a position or touches the
ledger. -/
def stop (b : SBotState) : SBotState :=
  { b with is_running := false }

theorem calculate_signals_long_sbot (b : SBotState) (p t : ℚ)
    (hpos : b.position = Position.long) :
    calculate_signals b p t =
      (if p ≤ b.entry_price * (1 - b.stop_loss_percent) then Signal.SELL
       else if p ≥ b.entry_price * (1 + b.take_profit_percent) then Signal.SELL
       else if t - b.entry_time ≥ b.max_hold_minutes then Signal.SELL
       else Signal.HOLD) := by
  unfold calculate_signals
  rw [hpos]

theorem execute_trade_sell_sbot (b : SBotState) (p t : ℚ) (hpos : b.position = Position.long) :
    execute_trade b Signal.SELL p t =
      { b with
        position := Position.flat
        sell_signals := b.sell_signals ++ [(t, p)]
        trades := b.trades ++
          [{ ttype := TradeType.sell, price := p, timestamp := t,
             profit := some (p - b.entry_price),
             reason := some
               (if p ≥ b.entry_price * (1 + b.take_profit_percent) then
                  ExitReason.takeProfit
                else ExitReason.stopLoss) }] } := by
  simp [execute_trade, hpos]

end SBot

namespace Enh

/-- In-position state of `EnhancedStrategy` in
`src/Streamlit/live_trading_bot_streamlit.py`: the attributes assigned by the
buy branch of `next` (lines 53-60) together with the two parameters the long
branch reads. -/
structure EnhState where
  entry_price : ℚ
  entry_time : ℚ
  stop_loss : ℚ
  take_profit : ℚ
  trailing_stop : ℚ
  trailing_percent : ℚ
  max_hold_minutes : ℚ
deriving DecidableEq, Repr

/-- The buy branch of `EnhancedStrategy.next` (lines 49-63): stores the entry
price and time, sets stop-loss and take-profit from the current ATR value, and
initializes the trailing stop to `entry_price * (1 - trailing_percent)`. -/
def openPosition (price t atr atr_multiplier trailing_percent max_hold_minutes : ℚ) :
    EnhState :=
  { entry_price := price
    entry_time := t
    stop_loss := price - atr * atr_multiplier
    take_profit := price + atr * atr_multiplier
    trailing_stop := price * (1 - trailing_percent)
    trailing_percent := trailing_percent
    max_hold_minutes := max_hold_minutes }

/-- The trailing-stop adjustment of `EnhancedStrategy.next` (lines 70-72): when
`current_price > entry_price and current_price > trailing_stop`, the trailing
stop becomes `max(trailing_stop, current_price * (1 - trailing_percent))`;
otherwise it is left unchanged. -/
def updateTrailing (s : EnhState) (current_price : ℚ) : ℚ :=
  if current_price > s.entry_price ∧ current_price > s.trailing_stop then
    max s.trailing_stop (current_price * (1 - s.trailing_percent))
  else
    s.trailing_stop

/-- The exit-condition evaluation of `EnhancedStrategy.next` (lines 74-92) on a
state whose trailing stop has already been adjusted for this bar.  Stop-loss,
take-profit and trailing-stop form an if/elif chain; the hold-time check at
lines 90-92 is a separate `if` that overwrites `exit_reason` whenever
`hold_time >= max_hold_minutes`, regardless of the chain's outcome. -/
def exitReason (s : EnhState) (current_price t : ℚ) : Option ExitReason :=
  let chain :=
    if current_price ≤ s.stop_loss then some ExitReason.stopLoss
    else if current_price ≥ s.take_profit then some ExitReason.takeProfit
    else if current_price ≤ s.trailing_stop then some ExitReason.trailingStop
    else none
  if t - s.entry_time ≥ s.max_hold_minutes then some ExitReason.timeExit
  else chain

/-- The long branch of `EnhancedStrategy.next` (lines 65-106): adjust the
trailing stop, then evaluate the exit conditions on the adjusted state.  A
`some` result means the strategy sells with that recorded reason; `none` means
it holds. -/
def next (s : EnhState) (current_price t : ℚ) : EnhState × Option ExitReason :=
  let s1 := { s with trailing_stop := updateTrailing s current_price }
  (s1, exitReason s1 current_price t)

theorem updateTrailing_mono (s : EnhState) (c : ℚ) :
    s.trailing_stop ≤ updateTrailing s c := by
  unfold updateTrailing
  by_cases h : c > s.entry_price ∧ c > s.trailing_stop
  · rw [if_pos h]
    exact le_max_left _ _
  · rw [if_neg h]

end Enh

namespace FixedExit

/-- The exit evaluation in the long branch of `FixedExitStrategy.next` in
`src/backtest/backtrader_test.py` (lines 37-50): a single if/elif chain over
stop-loss, take-profit and hold-time, so the first matching condition
determines both the sell and its recorded reason.  A `some` result means the
strategy sells with that reason; `none` means it holds. -/
def exitReason (entry_price entry_time stop_loss_percent take_profit_percent
    max_hold_minutes current_price t : ℚ) : Option ExitReason :=
  if current_price ≤ entry_price * (1 - stop_loss_percent) then
    some ExitReason.stopLoss
  else if current_price ≥ entry_price * (1 + take_profit_percent) then
    some ExitReason.takeProfit
  else if t - entry_time ≥ max_hold_minutes then
    some ExitReason.timeExit
  else
    none

end FixedExit

/-! ### Ledger predicates

Decidable predicates over the `trades` list used to state the spec's ledger
invariants: alternation of BUY and SELL, the pending unmatched BUY, and the
profit of each SELL against its matching BUY. -/

/-- The trade type expected after a trade of the given type in an alternating
ledger. -/
def flipType : TradeType → TradeType
  | TradeType.buy => TradeType.sell
  | TradeType.sell => TradeType.buy

/-- The ledger alternates trade types starting from `e`. -/
def altFrom : TradeType → List Trade → Bool
  | _, [] => true
  | e, t :: rest => (t.ttype == e) && altFrom (flipType e) rest

/-- The trade type an alternating ledger that started from `e` expects next. -/
def expectedNext : TradeType → List Trade → TradeType
  | e, [] => e
  | e, _ :: rest => expectedNext (flipType e) rest

/-- The ledger's last trade is a BUY (the trailing unmatched BUY of an
alternating ledger). -/
def endsInBuy (l : List Trade) : Bool :=
  l.getLast?.map Trade.ttype == some TradeType.buy

/-- Left fold over the ledger tracking the price of the pending unmatched BUY:
`none` when every BUY has been matched by a SELL, `some p` when the last
unmatched BUY was at price `p`. -/
def pendingBuy : Option ℚ → List Trade → Option ℚ
  | acc, [] => acc
  | none, t :: rest => pendingBuy (some t.price) rest
  | some _, _ :: rest => pendingBuy none rest

/-- One step of `pendingBuy`. -/
def pendingStep : Option ℚ → Trade → Option ℚ
  | none, t => some t.price
  | some _, _ => none

/-- Every trade at a SELL slot of the alternating ledger records profit equal
to its price minus the price of the immediately preceding (matching) BUY. -/
def sellsMatched : Option ℚ → List Trade → Bool
  | _, [] => true
  | none, t :: rest => sellsMatched (some t.price) rest
  | some bp, t :: rest => (t.profit == some (t.price - bp)) && sellsMatched none rest

/-- One step of `sellsMatched`: the check performed on the next appended
trade. -/
def matchOne : Option ℚ → Trade → Bool
  | none, _ => true
  | some bp, t => t.profit == some (t.price - bp)

/-- The `(timestamp, price)` markers of the ledger's BUY trades, in order. -/
def buyMarkers (l : List Trade) : List (ℚ × ℚ) :=
  (l.filter fun t => t.ttype == TradeType.buy).map fun t => (t.timestamp, t.price)

/-- The `(timestamp, price)` markers of the ledger's SELL trades, in order. -/
def sellMarkers (l : List Trade) : List (ℚ × ℚ) :=
  (l.filter fun t => t.ttype == TradeType.sell).map fun t => (t.timestamp, t.price)

/-- The prices of the ledger's SELL trades, in order. -/
def sellPrices (l : List Trade) : List ℚ :=
  (l.filter fun t => t.ttype == TradeType.sell).map Trade.price

theorem altFrom_append (e : TradeType) (l : List Trade) (x : Trade) :
    altFrom e (l ++ [x]) = (altFrom e l && (x.ttype == expectedNext e l)) := by
  induction l generalizing e with
  | nil => simp [altFrom, expectedNext]
  | cons a rest ih => simp [altFrom, expectedNext, ih, Bool.and_assoc]

theorem expectedNext_eq (e : TradeType) (l : List Trade) (h : altFrom e l = true) :
    expectedNext e l =
      (match l.getLast? with
       | none => e
       | some t => flipType t.ttype) := by
  induction l generalizing e with
  | nil => simp [expectedNext]
  | cons a rest ih =>
    simp only [altFrom, Bool.and_eq_true, beq_iff_eq] at h
    obtain ⟨h1, h2⟩ := h
    cases rest with
    | nil => simp [expectedNext, h1]
    | cons b rest2 =>
      rw [List.getLast?_cons_cons]
      simpa [expectedNext] using ih (flipType e) h2

theorem endsInBuy_append (l : List Trade) (x : Trade) :
    endsInBuy (l ++ [x]) = (x.ttype == TradeType.buy) := by
  simp [endsInBuy, List.getLast?_concat]

theorem pendingBuy_append (acc : Option ℚ) (l : List Trade) (x : Trade) :
    pendingBuy acc (l ++ [x]) = pendingStep (pendingBuy acc l) x := by
  induction l generalizing acc with
  | nil => cases acc <;> simp [pendingBuy, pendingStep]
  | cons a rest ih => cases acc <;> simp [pendingBuy, ih]

theorem sellsMatched_append (acc : Option ℚ) (l : List Trade) (x : Trade) :
    sellsMatched acc (l ++ [x]) =
      (sellsMatched acc l && matchOne (pendingBuy acc l) x) := by
  induction l generalizing acc with
  | nil => cases acc <;> simp [sellsMatched, pendingBuy, matchOne]
  | cons a rest ih => cases acc <;> simp [sellsMatched, pendingBuy, ih, Bool.and_assoc]

theorem buyMarkers_append (l : List Trade) (x : Trade) :
    buyMarkers (l ++ [x]) =
      buyMarkers l ++
        (if x.ttype == TradeType.buy then [(x.timestamp, x.price)] else []) := by
  cases hx : x.ttype == TradeType.buy <;>
    simp [buyMarkers, List.filter_append, List.filter, hx]

theorem sellMarkers_append (l : List Trade) (x : Trade) :
    sellMarkers (l ++ [x]) =
      sellMarkers l ++
        (if x.ttype == TradeType.sell then [(x.timestamp, x.price)] else []) := by
  cases hx : x.ttype == TradeType.sell <;>
    simp [sellMarkers, List.filter_append, List.filter, hx]

theorem sellPrices_append (l : List Trade) (x : Trade) :
    sellPrices (l ++ [x]) =
      sellPrices l ++ (if x.ttype == TradeType.sell then [x.price] else []) := by
  cases hx : x.ttype == TradeType.sell <;>
    simp [sellPrices, List.filter_append, List.filter, hx]

namespace Bot

/-! ### Reachable states of the `trade.py` engine

An engine state is reachable when it results from the constructor followed by
any interleaving of run-loop iterations and `stop` calls. -/

/-- One externally triggered operation on a `trade.py` engine: a run-loop
iteration with a given fetch outcome, or a `stop` call with its two
`datetime.now()` readings. -/
inductive BotOp
  | fetchIter (result : Option (List (ℚ × ℚ)))
  | doStop (now1 now2 : ℚ)

/-- Apply one operation to the engine state. -/
def applyOp (b : BotState) (op : BotOp) : BotState :=
  match op with
  | BotOp.fetchIter r => runStep b r
  | BotOp.doStop n1 n2 => stop b n1 n2

/-- Run a sequence of operations from a state. -/
def runOps (b : BotState) (ops : List BotOp) : BotState :=
  ops.foldl applyOp b

/-- The engine invariant: the ledger alternates BUY/SELL starting with BUY;
the position is LONG exactly when the ledger ends in an unmatched BUY; while
LONG the pending BUY's price is the stored entry price; every SELL's profit is
its price minus its matching BUY's price; the buy-signal list mirrors the BUY
trades' `(timestamp, price)` pairs; and the sell-signal prices mirror the SELL
trades' prices. -/
def Inv (b : BotState) : Prop :=
  altFrom TradeType.buy b.trades = true ∧
  (b.position = Position.long ↔ endsInBuy b.trades = true) ∧
  (b.position = Position.long → pendingBuy none b.trades = some b.entry_price) ∧
  (b.position = Position.flat → pendingBuy none b.trades = none) ∧
  sellsMatched none b.trades = true ∧
  b.buy_signals = buyMarkers b.trades ∧
  b.sell_signals.map Prod.snd = sellPrices b.trades

theorem Inv_init (slp tpp mhm : ℚ) (is1m : Bool) : Inv (init slp tpp mhm is1m) := by
  simp [Inv, init, altFrom, endsInBuy, pendingBuy, sellsMatched, buyMarkers,
    sellPrices]

theorem expectedNext_buy_of_not_endsInBuy (l : List Trade)
    (halt : altFrom TradeType.buy l = true) (h : endsInBuy l = false) :
    expectedNext TradeType.buy l = TradeType.buy := by
  rw [expectedNext_eq TradeType.buy l halt]
  cases hl : l.getLast? with
  | none => rfl
  | some t =>
    simp only [endsInBuy, hl, Option.map_some] at h
    cases ht : t.ttype with
    | buy => simp [ht] at h
    | sell => simp [ht, flipType]

theorem expectedNext_sell_of_endsInBuy (l : List Trade)
    (halt : altFrom TradeType.buy l = true) (h : endsInBuy l = true) :
    expectedNext TradeType.buy l = TradeType.sell := by
  rw [expectedNext_eq TradeType.buy l halt]
  cases hl : l.getLast? with
  | none => simp [endsInBuy, hl] at h
  | some t =>
    simp only [endsInBuy, hl] at h
    simp only [Option.map, beq_iff_eq, Option.some.injEq] at h
    simp [h, flipType]

theorem Inv_execute_trade (b : BotState) (sig : Signal) (p t : ℚ) (h : Inv b) :
    Inv (execute_trade b sig p t) := by
  obtain ⟨halt, hiff, hlong, hflat, hsm, hbm, hsp⟩ := h
  unfold execute_trade
  split
  case isTrue hb =>
    obtain ⟨-, hpos⟩ := hb
    have hnb : endsInBuy b.trades = false := by
      cases he : endsInBuy b.trades with
      | false => rfl
      | true =>
        have hl := hiff.mpr he
        rw [hpos] at hl
        exact Position.noConfusion hl
    refine ⟨?_, ?_, ?_, ?_, ?_, ?_, ?_⟩
    · rw [altFrom_append, halt,
        expectedNext_buy_of_not_endsInBuy b.trades halt hnb]
      simp
    · simp [endsInBuy_append]
    · intro _
      simp [pendingBuy_append, hflat hpos, pendingStep]
    · intro hc
      simp at hc
    · rw [sellsMatched_append, hsm, hflat hpos]
      simp [matchOne]
    · simp [buyMarkers_append, hbm]
    · simp [sellPrices_append, hsp]
  case isFalse =>
    split
    case isTrue hb =>
      obtain ⟨-, hpos⟩ := hb
      have hb' : endsInBuy b.trades = true := hiff.mp hpos
      refine ⟨?_, ?_, ?_, ?_, ?_, ?_, ?_⟩
      · rw [altFrom_append, halt,
          expectedNext_sell_of_endsInBuy b.trades halt hb']
        simp
      · simp [endsInBuy_append]
      · intro hc
        simp at hc
      · intro _
        simp [pendingBuy_append, hlong hpos, pendingStep]
      · rw [sellsMatched_append, hsm, hlong hpos]
        simp [matchOne]
      · simp [buyMarkers_append, hbm]
      · simp [sellPrices_append, hsp]
    case isFalse =>
      exact ⟨halt, hiff, hlong, hflat, hsm, hbm, hsp⟩

theorem stop_eq_long (b : BotState) (bar : ℚ × ℚ) (n1 n2 : ℚ)
    (hpos : b.position = Position.long) (hd : b.data.getLast? = some bar) :
    stop b n1 n2 =
      { b with
        is_running := false
        position := Position.flat
        sell_signals := b.sell_signals ++ [(n1, bar.2)]
        trades := b.trades ++
          [{ ttype := TradeType.sell, price := bar.2, timestamp := n2,
             profit := some (bar.2 - b.entry_price),
             reason := some ExitReason.manualStop }] } := by
  simp [stop, hd, hpos]

theorem stop_eq_flat (b : BotState) (n1 n2 : ℚ) (hpos : b.position = Position.flat) :
    stop b n1 n2 = { b with is_running := false } := by
  cases hd : b.data.getLast? <;> simp [stop, hd, hpos]

theorem stop_eq_nodata (b : BotState) (n1 n2 : ℚ) (hd : b.data.getLast? = none) :
    stop b n1 n2 = { b with is_running := false } := by
  simp [stop, hd]

theorem runStep_fetch_bar (b : BotState) (l : List (ℚ × ℚ)) (bar : ℚ × ℚ)
    (hd : l.getLast? = some bar) :
    runStep b (some l) =
      execute_trade { b with data := l }
        (calculate_signals { b with data := l } bar.2 bar.1) bar.2 bar.1 := by
  simp [runStep, hd]

theorem runStep_fetch_empty (b : BotState) (l : List (ℚ × ℚ)) (hd : l.getLast? = none) :
    runStep b (some l) = { b with data := l } := by
  simp [runStep, hd]

theorem runStep_err_bar (b : BotState) (bar : ℚ × ℚ)
    (hd : b.data.getLast? = some bar) :
    runStep b none = execute_trade b (calculate_signals b bar.2 bar.1) bar.2 bar.1 := by
  simp [runStep, hd]

theorem runStep_err_empty (b : BotState) (hd : b.data.getLast? = none) :
    runStep b none = b := by
  simp [runStep, hd]

theorem Inv_stop (b : BotState) (n1 n2 : ℚ) (h : Inv b) : Inv (stop b n1 n2) := by
  obtain ⟨halt, hiff, hlong, hflat, hsm, hbm, hsp⟩ := h
  cases hd : b.data.getLast? with
  | none =>
    rw [stop_eq_nodata b n1 n2 hd]
    exact ⟨halt, hiff, hlong, hflat, hsm, hbm, hsp⟩
  | some bar =>
    cases hpos : b.position with
    | flat =>
      rw [stop_eq_flat b n1 n2 hpos]
      exact ⟨halt, hiff, hlong, hflat, hsm, hbm, hsp⟩
    | long =>
      rw [stop_eq_long b bar n1 n2 hpos hd]
      have hb' : endsInBuy b.trades = true := hiff.mp hpos
      refine ⟨?_, ?_, ?_, ?_, ?_, ?_, ?_⟩
      · rw [altFrom_append, halt,
          expectedNext_sell_of_endsInBuy b.trades halt hb']
        simp
      · simp [endsInBuy_append]
      · intro hc
        simp at hc
      · intro _
        simp [pendingBuy_append, hlong hpos, pendingStep]
      · rw [sellsMatched_append, hsm, hlong hpos]
        simp [matchOne]
      · simp [buyMarkers_append, hbm]
      · simp [sellPrices_append, hsp]

theorem Inv_runStep (b : BotState) (r : Option (List (ℚ × ℚ))) (h : Inv b) :
    Inv (runStep b r) := by
  have hdata : ∀ l, Inv { b with data := l } := fun _ => h
  cases r with
  | none =>
    cases hd : b.data.getLast? with
    | none => rw [runStep_err_empty b hd]; exact h
    | some bar => rw [runStep_err_bar b bar hd]; exact Inv_execute_trade b _ bar.2 bar.1 h
  | some l =>
    cases hd : l.getLast? with
    | none => rw [runStep_fetch_empty b l hd]; exact hdata l
    | some bar =>
      rw [runStep_fetch_bar b l bar hd]
      exact Inv_execute_trade { b with data := l } _ bar.2 bar.1 (hdata l)

theorem calculate_signals_flat (b : BotState) (p t : ℚ)
    (hpos : b.position = Position.flat) :
    calculate_signals b p t = Signal.BUY := by
  unfold calculate_signals
  rw [hpos]

theorem calculate_signals_long (b : BotState) (p t : ℚ)
    (hpos : b.position = Position.long) :
    calculate_signals b p t =
      (if p ≤ b.entry_price * (1 - b.stop_loss_percent) then Signal.SELL
       else if p ≥ b.entry_price * (1 + b.take_profit_percent) then Signal.SELL
       else if t - b.entry_time ≥ b.max_hold_minutes * b.interval_minutes then
         Signal.SELL
       else Signal.HOLD) := by
  unfold calculate_signals
  rw [hpos]

theorem execute_trade_buy (b : BotState) (p t : ℚ) (hpos : b.position = Position.flat) :
    execute_trade b Signal.BUY p t =
      { b with
        position := Position.long
        entry_price := p
        entry_time := t
        buy_signals := b.buy_signals ++ [(t, p)]
        trades := b.trades ++
          [{ ttype := TradeType.buy, price := p, timestamp := t,
             profit := none, reason := none }] } := by
  simp [execute_trade, hpos]

theorem execute_trade_sell (b : BotState) (p t : ℚ) (hpos : b.position = Position.long) :
    execute_trade b Signal.SELL p t =
      { b with
        position := Position.flat
        sell_signals := b.sell_signals ++ [(t, p)]
        trades := b.trades ++
          [{ ttype := TradeType.sell, price := p, timestamp := t,
             profit := some (p - b.entry_price),
             reason := some
               (if p ≥ b.entry_price * (1 + b.take_profit_percent) then
                  ExitReason.takeProfit
                else if p ≤ b.entry_price * (1 - b.stop_loss_percent) then
                  ExitReason.stopLoss
                else ExitReason.timeExit) }] } := by
  simp [execute_trade, hpos]

theorem execute_trade_hold (b : BotState) (p t : ℚ) :
    execute_trade b Signal.HOLD p t = b := by
  simp [execute_trade]

theorem execute_trade_entry_stable (b : BotState) (sig : Signal) (p t : ℚ)
    (hpos : b.position = Position.long)
    (hpos' : (execute_trade b sig p t).position = Position.long) :
    execute_trade b sig p t = b := by
  by_cases h1 : sig = Signal.BUY ∧ b.position = Position.flat
  · rw [hpos] at h1
    exact absurd h1.2 (by decide)
  · by_cases h2 : sig = Signal.SELL ∧ b.position = Position.long
    · unfold execute_trade at hpos'
      rw [if_neg h1, if_pos h2] at hpos'
      simp at hpos'
    · unfold execute_trade
      rw [if_neg h1, if_neg h2]

theorem Inv_applyOp (b : BotState) (op : BotOp) (h : Inv b) : Inv (applyOp b op) := by
  cases op with
  | fetchIter r => exact Inv_runStep b r h
  | doStop n1 n2 => exact Inv_stop b n1 n2 h

theorem Inv_runOps (b : BotState) (ops : List BotOp) (h : Inv b) :
    Inv (runOps b ops) := by
  induction ops generalizing b with
  | nil => exact h
  | cons op rest ih => exact ih (applyOp b op) (Inv_applyOp b op h)

theorem Inv_reachable (slp tpp mhm : ℚ) (is1m : Bool) (ops : List BotOp) :
    Inv (runOps (init slp tpp mhm is1m) ops) :=
  Inv_runOps _ ops (Inv_init slp tpp mhm is1m)

theorem applyOp_entry_stable (b : BotState) (op : BotOp)
    (hpos : b.position = Position.long)
    (hpos' : (applyOp b op).position = Position.long) :
    (applyOp b op).entry_price = b.entry_price ∧
    (applyOp b op).entry_time = b.entry_time := by
  cases op with
  | fetchIter r =>
    have happ : applyOp b (BotOp.fetchIter r) = runStep b r := rfl
    rw [happ] at hpos' ⊢
    cases r with
    | none =>
      cases hd : b.data.getLast? with
      | none => rw [runStep_err_empty b hd]; exact ⟨rfl, rfl⟩
      | some bar =>
        rw [runStep_err_bar b bar hd] at hpos' ⊢
        rw [execute_trade_entry_stable b _ bar.2 bar.1 hpos hpos']
        exact ⟨rfl, rfl⟩
    | some l =>
      cases hd : l.getLast? with
      | none => rw [runStep_fetch_empty b l hd]; exact ⟨rfl, rfl⟩
      | some bar =>
        rw [runStep_fetch_bar b l bar hd] at hpos' ⊢
        have hpos2 : ({ b with data := l } : BotState).position = Position.long := hpos
        rw [execute_trade_entry_stable { b with data := l } _ bar.2 bar.1 hpos2 hpos']
        exact ⟨rfl, rfl⟩
  | doStop n1 n2 =>
    have happ : applyOp b (BotOp.doStop n1 n2) = stop b n1 n2 := rfl
    rw [happ] at hpos' ⊢
    cases hd : b.data.getLast? with
    | none => rw [stop_eq_nodata b n1 n2 hd]; exact ⟨rfl, rfl⟩
    | some bar =>
      rw [stop_eq_long b bar n1 n2 hpos hd] at hpos'
      simp at hpos'

/-- An operation that is a run-loop iteration rather than a `stop` call. -/
def isFetchIter : BotOp → Bool
  | BotOp.fetchIter _ => true
  | BotOp.doStop _ _ => false

/-- The sell-signal list mirrors the SELL trades' `(timestamp, price)` pairs
exactly.  This holds as long as only `execute_trade` appends SELLs; `stop`
breaks it because it reads the clock separately for the signal and for the
trade. -/
def SellSync (b : BotState) : Prop := b.sell_signals = sellMarkers b.trades

theorem SellSync_execute_trade (b : BotState) (sig : Signal) (p t : ℚ)
    (h : SellSync b) : SellSync (execute_trade b sig p t) := by
  unfold SellSync at h ⊢
  unfold execute_trade
  split
  · simp [sellMarkers_append, h]
  · split
    · simp [sellMarkers_append, h]
    · exact h

theorem SellSync_runStep (b : BotState) (r : Option (List (ℚ × ℚ)))
    (h : SellSync b) : SellSync (runStep b r) := by
  have hdata : ∀ l, SellSync { b with data := l } := fun _ => h
  cases r with
  | none =>
    cases hd : b.data.getLast? with
    | none => rw [runStep_err_empty b hd]; exact h
    | some bar => rw [runStep_err_bar b bar hd]; exact SellSync_execute_trade b _ bar.2 bar.1 h
  | some l =>
    cases hd : l.getLast? with
    | none => rw [runStep_fetch_empty b l hd]; exact hdata l
    | some bar =>
      rw [runStep_fetch_bar b l bar hd]
      exact SellSync_execute_trade { b with data := l } _ bar.2 bar.1 (hdata l)

theorem SellSync_runOps (b : BotState) (ops : List BotOp) (h : SellSync b)
    (hops : ∀ op ∈ ops, isFetchIter op = true) : SellSync (runOps b ops) := by
  induction ops generalizing b with
  | nil => exact h
  | cons op rest ih =>
    have hop : isFetchIter op = true := hops op (List.mem_cons_self op rest)
    have hrest : ∀ op' ∈ rest, isFetchIter op' = true :=
      fun op' hm => hops op' (List.mem_cons_of_mem op hm)
    cases op with
    | fetchIter r => exact ih (applyOp b (BotOp.fetchIter r)) (SellSync_runStep b r h) hrest
    | doStop n1 n2 => simp [isFetchIter] at hop

end Bot

/-! ### Claims -/

/-- Claim C4: in every reachable state of the `trade.py` engine (constructor
followed by any interleaving of run-loop iterations and `stop` calls), the
trade ledger is an alternating BUY, SELL, BUY, SELL, ... sequence starting
with BUY — so no two consecutive trades share a type and at most one trailing
unmatched BUY exists — and the position is LONG exactly when the ledger ends
in that unmatched BUY. -/
theorem C4_ledger_alternating (slp tpp mhm : ℚ) (is1m : Bool) (ops : List Bot.BotOp) :
    altFrom TradeType.buy (Bot.runOps (Bot.init slp tpp mhm is1m) ops).trades = true ∧
    ((Bot.runOps (Bot.init slp tpp mhm is1m) ops).position = Position.long ↔
      endsInBuy (Bot.runOps (Bot.init slp tpp mhm is1m) ops).trades = true) := by
  obtain ⟨h1, h2, -, -, -, -, -⟩ := Bot.Inv_reachable slp tpp mhm is1m ops
  exact ⟨h1, h2⟩

/-- Claim C7: in every reachable state of the `trade.py` engine, the ledger
alternates BUY/SELL from BUY, and every trade in a SELL slot records profit
equal to its price minus the price of the immediately preceding (matching)
BUY; moreover, while the position stays LONG across any single engine
operation, `entry_price` and `entry_time` are unchanged, so the entry price
used at exit is the one recorded when the matching BUY opened the position. -/
theorem C7_sell_profit (slp tpp mhm : ℚ) (is1m : Bool) (ops : List Bot.BotOp) :
    (altFrom TradeType.buy (Bot.runOps (Bot.init slp tpp mhm is1m) ops).trades = true ∧
     sellsMatched none (Bot.runOps (Bot.init slp tpp mhm is1m) ops).trades = true) ∧
    (∀ b : Bot.BotState, ∀ op : Bot.BotOp,
       b.position = Position.long → (Bot.applyOp b op).position = Position.long →
       (Bot.applyOp b op).entry_price = b.entry_price ∧
       (Bot.applyOp b op).entry_time = b.entry_time) := by
  obtain ⟨h1, -, -, -, h5, -, -⟩ := Bot.Inv_reachable slp tpp mhm is1m ops
  exact ⟨⟨h1, h5⟩, fun b op => Bot.applyOp_entry_stable b op⟩

/-- Witness for C7: a concrete long state (BUY at price 100, time 0, no
fetched data) kept long by a `stop` call; its entry fields are unchanged,
and the empty reachable ledger satisfies the ledger part. -/
theorem C7_sell_profit_witness :
    (altFrom TradeType.buy (Bot.runOps (Bot.init 1 2 5 true) []).trades = true ∧
     sellsMatched none (Bot.runOps (Bot.init 1 2 5 true) []).trades = true) ∧
    ((Bot.applyOp (Bot.execute_trade (Bot.init 1 2 5 true) Signal.BUY 100 0)
        (Bot.BotOp.doStop 3 4)).entry_price =
      (Bot.execute_trade (Bot.init 1 2 5 true) Signal.BUY 100 0).entry_price ∧
     (Bot.applyOp (Bot.execute_trade (Bot.init 1 2 5 true) Signal.BUY 100 0)
        (Bot.BotOp.doStop 3 4)).entry_time =
      (Bot.execute_trade (Bot.init 1 2 5 true) Signal.BUY 100 0).entry_time) :=
  ⟨(C7_sell_profit 1 2 5 true []).1,
   (C7_sell_profit 1 2 5 true []).2
     (Bot.execute_trade (Bot.init 1 2 5 true) Signal.BUY 100 0)
     (Bot.BotOp.doStop 3 4) rfl rfl⟩

/-- State used to refute claim C10: a LONG engine that bought at price 100 at
time 0, whose last fetched bar is `(0, 100)`, about to be stopped with clock
readings 7 and 8. -/
def c10state : Bot.BotState :=
  { stop_loss_percent := 1/10
    take_profit_percent := 1/5
    max_hold_minutes := 5
    interval_minutes := 1
    position := Position.long
    entry_price := 100
    entry_time := 0
    data := [(0, 100)]
    buy_signals := [(0, 100)]
    sell_signals := []
    trades := [{ ttype := TradeType.buy, price := 100, timestamp := 0,
                 profit := none, reason := none }]
    is_running := true }

/-- Counterexample to claim C10 as stated: `stop` reads the clock separately
for the sell-signal entry (first reading, here 7) and for the SELL trade
record (second reading, here 8), so the appended sell-signal entry's timestamp
differs from the appended SELL trade's timestamp whenever the two readings
differ. -/
theorem C10_counterexample :
    c10state.position = Position.long ∧
    (Bot.stop c10state 7 8).sell_signals = [(7, 100)] ∧
    (Bot.stop c10state 7 8).trades.getLast?.map Trade.timestamp = some 8 := by
  refine ⟨rfl, ?_, ?_⟩ <;>
    · rw [Bot.stop_eq_long c10state (0, 100) 7 8 rfl rfl]
      simp [c10state]

/-- Claim C10 as amended: in every reachable state of the `trade.py` engine
the buy-signal list equals the BUY trades' `(timestamp, price)` pairs in
order, and the sell-signal prices equal the SELL trades' prices in order; the
sell-signal timestamps also equal the SELL trades' timestamps as long as no
`stop` call occurred, because `stop` takes its two timestamps from two
separate clock readings that need not agree. -/
theorem C10_signal_ledger_sync (slp tpp mhm : ℚ) (is1m : Bool) (ops : List Bot.BotOp) :
    ((Bot.runOps (Bot.init slp tpp mhm is1m) ops).buy_signals =
        buyMarkers (Bot.runOps (Bot.init slp tpp mhm is1m) ops).trades ∧
      (Bot.runOps (Bot.init slp tpp mhm is1m) ops).sell_signals.map Prod.snd =
        sellPrices (Bot.runOps (Bot.init slp tpp mhm is1m) ops).trades) ∧
    ((∀ op ∈ ops, Bot.isFetchIter op = true) →
      (Bot.runOps (Bot.init slp tpp mhm is1m) ops).sell_signals =
        sellMarkers (Bot.runOps (Bot.init slp tpp mhm is1m) ops).trades) := by
  obtain ⟨-, -, -, -, -, h6, h7⟩ := Bot.Inv_reachable slp tpp mhm is1m ops
  exact ⟨⟨h6, h7⟩, fun hops => Bot.SellSync_runOps _ ops rfl hops⟩

/-- Witness for C10's amended theorem: one stop-free iteration that buys at
`(0, 100)` keeps the sell-signal list equal to the (empty) SELL markers. -/
theorem C10_signal_ledger_sync_witness :
    (Bot.runOps (Bot.init 1 2 5 true) [Bot.BotOp.fetchIter (some [(0, 100)])]).sell_signals =
      sellMarkers
        (Bot.runOps (Bot.init 1 2 5 true) [Bot.BotOp.fetchIter (some [(0, 100)])]).trades :=
  (C10_signal_ledger_sync 1 2 5 true [Bot.BotOp.fetchIter (some [(0, 100)])]).2
    (by intro op hm; simp at hm; rw [hm]; rfl)

/-- Counterexample to claim C8 as stated: constructing the `trade.py` engine
with a negative stop-loss percentage succeeds — `__init__` performs no
validation — and the resulting engine starts and executes a BUY on its first
bar, so no `ConfigurationError` rejection exists. -/
theorem C8_counterexample :
    (Bot.init (-5) 20 5 true).stop_loss_percent = -(1/20) ∧
    (Bot.init (-5) 20 5 true).stop_loss_percent ≤ 0 ∧
    (Bot.runStep { Bot.init (-5) 20 5 true with is_running := true }
        (some [(0, 100)])).trades =
      [{ ttype := TradeType.buy, price := 100, timestamp := 0,
         profit := none, reason := none }] ∧
    (Bot.runStep { Bot.init (-5) 20 5 true with is_running := true }
        (some [(0, 100)])).position = Position.long := by
  rw [Bot.runStep_fetch_bar _ [(0, 100)] (0, 100) rfl]
  rw [Bot.calculate_signals_flat _ _ _ rfl]
  rw [Bot.execute_trade_buy _ _ _ rfl]
  refine ⟨by norm_num [Bot.init], by norm_num [Bot.init], ?_, rfl⟩
  simp [Bot.init]

/-- Claim C8 as amended: construction never fails and performs no validation.
For every configuration — including non-positive fractions and non-positive
durations — the constructor stores the percent arguments divided by 100 and
the hold duration as given (both for `bot/trade.py` and `Streamlit/bot.py`),
and the constructed engine is runnable: its first processed bar executes a
BUY trade. -/
theorem C8_no_validation (slp tpp mhm p t : ℚ) (is1m : Bool) :
    (Bot.init slp tpp mhm is1m).stop_loss_percent = slp / 100 ∧
    (Bot.init slp tpp mhm is1m).take_profit_percent = tpp / 100 ∧
    (Bot.init slp tpp mhm is1m).max_hold_minutes = mhm ∧
    (SBot.init slp tpp mhm).stop_loss_percent = slp / 100 ∧
    (SBot.init slp tpp mhm).take_profit_percent = tpp / 100 ∧
    (SBot.init slp tpp mhm).max_hold_minutes = mhm ∧
    (Bot.runStep { Bot.init slp tpp mhm is1m with is_running := true }
        (some [(t, p)])).trades =
      [{ ttype := TradeType.buy, price := p, timestamp := t,
         profit := none, reason := none }] := by
  rw [Bot.runStep_fetch_bar _ [(t, p)] (t, p) rfl]
  rw [Bot.calculate_signals_flat _ _ _ rfl]
  rw [Bot.execute_trade_buy _ _ _ rfl]
  refine ⟨rfl, rfl, rfl, rfl, rfl, rfl, ?_⟩
  simp [Bot.init]

/-- State used to refute claim C9: the `trade.py` engine right after its first
run-loop iteration processed the bar `(0, 100)` and bought. -/
def c9state : Bot.BotState :=
  Bot.runStep { Bot.init 10 20 5 true with is_running := true } (some [(0, 100)])

/-- Counterexample to claim C9 as stated: after the first iteration processes
the bar at timestamp 0 (one BUY trade, position LONG), a second iteration
whose fetched bar carries the same timestamp 0 — a provider re-returning the
still-forming bar, now with close 85 — is not skipped: the engine processes
it, appends a SELL trade and flattens the position. -/
theorem C9_counterexample :
    c9state.trades.length = 1 ∧
    c9state.position = Position.long ∧
    c9state.entry_time = 0 ∧
    (Bot.runStep c9state (some [(0, 85)])).trades.length = 2 ∧
    (Bot.runStep c9state (some [(0, 85)])).position = Position.flat := by
  have e1 : c9state =
      { stop_loss_percent := 1/10
        take_profit_percent := 1/5
        max_hold_minutes := 5
        interval_minutes := 1
        position := Position.long
        entry_price := 100
        entry_time := 0
        data := [(0, 100)]
        buy_signals := [(0, 100)]
        sell_signals := []
        trades := [{ ttype := TradeType.buy, price := 100, timestamp := 0,
                     profit := none, reason := none }]
        is_running := true } := by
    unfold c9state
    rw [Bot.runStep_fetch_bar _ [(0, 100)] (0, 100) rfl,
      Bot.calculate_signals_flat _ _ _ rfl, Bot.execute_trade_buy _ _ _ rfl]
    norm_num [Bot.init]
  refine ⟨by simp [e1], by simp [e1], by simp [e1], ?_, ?_⟩
  · rw [e1, Bot.runStep_fetch_bar _ [(0, 85)] (0, 85) rfl,
      Bot.calculate_signals_long _ _ _ rfl]
    norm_num
    rw [Bot.execute_trade_sell _ _ _ rfl]
    simp
  · rw [e1, Bot.runStep_fetch_bar _ [(0, 85)] (0, 85) rfl,
      Bot.calculate_signals_long _ _ _ rfl]
    norm_num
    rw [Bot.execute_trade_sell _ _ _ rfl]

/-- Claim C9 as amended: the run loop has no timestamp guard.  A fetched bar
is processed unconditionally: even a bar whose timestamp is at most the entry
time (hence at most the timestamp of the last processed bar) is fed to the
decision logic and, when it breaches the stop-loss threshold of a LONG
position, appends a SELL trade and changes the position.  Only an empty fetch
leaves everything but the stored data unchanged. -/
theorem C9_no_timestamp_guard :
    (∀ b : Bot.BotState, ∀ p t : ℚ,
       b.position = Position.long →
       p ≤ b.entry_price * (1 - b.stop_loss_percent) →
       t ≤ b.entry_time →
       (Bot.runStep b (some [(t, p)])).trades.length = b.trades.length + 1 ∧
       (Bot.runStep b (some [(t, p)])).position = Position.flat) ∧
    (∀ b : Bot.BotState, Bot.runStep b (some []) = { b with data := [] }) := by
  constructor
  · intro b p t hpos hsl hstale
    rw [Bot.runStep_fetch_bar b [(t, p)] (t, p) rfl]
    have hpos2 : ({ b with data := [(t, p)] } : Bot.BotState).position = Position.long :=
      hpos
    rw [Bot.calculate_signals_long _ _ _ hpos2, if_pos hsl,
      Bot.execute_trade_sell _ _ _ hpos2]
    exact ⟨by simp, rfl⟩
  · intro b
    exact Bot.runStep_fetch_empty b [] rfl

/-- State used in the witness for C9's amended theorem: a LONG engine with
entry price 100 at time 0. -/
def c9wstate : Bot.BotState :=
  { stop_loss_percent := 1/10
    take_profit_percent := 1/5
    max_hold_minutes := 5
    interval_minutes := 1
    position := Position.long
    entry_price := 100
    entry_time := 0
    data := [(0, 100)]
    buy_signals := [(0, 100)]
    sell_signals := []
    trades := [{ ttype := TradeType.buy, price := 100, timestamp := 0,
                 profit := none, reason := none }]
    is_running := true }

/-- Witness for C9's amended theorem at the concrete stale bar `(0, 85)`. -/
theorem C9_no_timestamp_guard_witness :
    (Bot.runStep c9wstate (some [(0, 85)])).trades.length =
      c9wstate.trades.length + 1 ∧
    (Bot.runStep c9wstate (some [(0, 85)])).position = Position.flat :=
  C9_no_timestamp_guard.1 c9wstate 85 0 rfl (by norm_num [c9wstate]) le_rfl

/-- State used to refute claim C6: a LONG `Streamlit/bot.py` engine being
stopped. -/
def c6state : SBot.SBotState :=
  { stop_loss_percent := 1/1000
    take_profit_percent := 1/500
    max_hold_minutes := 5
    position := Position.long
    entry_price := 100
    entry_time := 0
    data := [(0, 100)]
    buy_signals := [(0, 100)]
    sell_signals := []
    trades := [{ ttype := TradeType.buy, price := 100, timestamp := 0,
                 profit := none, reason := none }]
    is_running := true }

/-- Counterexample to claim C6 as stated: `stop` in `src/Streamlit/bot.py`
never closes an open position — stopping this LONG engine leaves the ledger
and the position unchanged, so no SELL with reason MANUAL_STOP is appended. -/
theorem C6_counterexample :
    c6state.position = Position.long ∧
    SBot.stop c6state = { c6state with is_running := false } ∧
    (SBot.stop c6state).trades = c6state.trades ∧
    (SBot.stop c6state).position = Position.long :=
  ⟨rfl, rfl, rfl, rfl⟩

/-- Claim C6 as amended: in `bot/trade.py`, `stop()` on a LONG engine whose
stored data is nonempty appends exactly one SELL with reason Manual Stop at
the latest fetched close, flattens the position and clears the running flag,
changing nothing else; on a FLAT engine, or when the stored data is empty
(then even a LONG position is left open), it changes only the running flag.
In `Streamlit/bot.py`, `stop()` never closes a position: it only clears the
running flag. -/
theorem C6_stop_behavior :
    (∀ b : Bot.BotState, ∀ bar : ℚ × ℚ, ∀ n1 n2 : ℚ,
       b.position = Position.long → b.data.getLast? = some bar →
       Bot.stop b n1 n2 =
         { b with
           is_running := false
           position := Position.flat
           sell_signals := b.sell_signals ++ [(n1, bar.2)]
           trades := b.trades ++
             [{ ttype := TradeType.sell, price := bar.2, timestamp := n2,
                profit := some (bar.2 - b.entry_price),
                reason := some ExitReason.manualStop }] }) ∧
    (∀ b : Bot.BotState, ∀ n1 n2 : ℚ, b.position = Position.flat →
       Bot.stop b n1 n2 = { b with is_running := false }) ∧
    (∀ b : Bot.BotState, ∀ n1 n2 : ℚ, b.data.getLast? = none →
       Bot.stop b n1 n2 = { b with is_running := false }) ∧
    (∀ sb : SBot.SBotState, SBot.stop sb = { sb with is_running := false }) :=
  ⟨fun b bar n1 n2 hpos hd => Bot.stop_eq_long b bar n1 n2 hpos hd,
   fun b n1 n2 hpos => Bot.stop_eq_flat b n1 n2 hpos,
   fun b n1 n2 hd => Bot.stop_eq_nodata b n1 n2 hd,
   fun _ => rfl⟩

/-- State used in the witness for C6's amended theorem: a LONG `trade.py`
engine with latest fetched bar `(0, 100)`. -/
def c6wstate : Bot.BotState :=
  { stop_loss_percent := 1/1000
    take_profit_percent := 1/500
    max_hold_minutes := 5
    interval_minutes := 1
    position := Position.long
    entry_price := 100
    entry_time := 0
    data := [(0, 100)]
    buy_signals := [(0, 100)]
    sell_signals := []
    trades := [{ ttype := TradeType.buy, price := 100, timestamp := 0,
                 profit := none, reason := none }]
    is_running := true }

/-- Witness for C6's amended theorem at a concrete LONG engine. -/
theorem C6_stop_behavior_witness :
    Bot.stop c6wstate 7 8 =
      { c6wstate with
        is_running := false
        position := Position.flat
        sell_signals := c6wstate.sell_signals ++ [(7, 100)]
        trades := c6wstate.trades ++
          [{ ttype := TradeType.sell, price := 100, timestamp := 8,
             profit := some (100 - c6wstate.entry_price),
             reason := some ExitReason.manualStop }] } :=
  C6_stop_behavior.1 c6wstate (0, 100) 7 8 rfl rfl

/-- State used to refute claim C1: the `trade.py` engine constructed with
stop_loss_percent 10 and take_profit_percent -30 — accepted unvalidated, so
the stored fractions are 1/10 and -3/10 — after buying at price 100 at
time 0. -/
def c1state : Bot.BotState :=
  Bot.execute_trade (Bot.init 10 (-30) 5 true) Signal.BUY 100 0

/-- Counterexample to claim C1 as stated: for this LONG position with
stop_loss_fraction 1/10 > 0 and entry price 100, the bar at time 1 with close
85 satisfies close ≤ 100 × (1 − 1/10), and `calculate_signals` decides SELL
through its stop-loss branch — the first-match priority reason is STOP_LOSS —
but `execute_trade` re-derives the reason post hoc, testing take-profit
first, and since the (unvalidated, negative) take-profit threshold 70 is also
breached, the appended SELL carries reason Take Profit. -/
theorem C1_counterexample :
    c1state.position = Position.long ∧
    0 < c1state.stop_loss_percent ∧
    (85:ℚ) ≤ c1state.entry_price * (1 - c1state.stop_loss_percent) ∧
    Bot.calculate_signals c1state 85 1 = Signal.SELL ∧
    (Bot.execute_trade c1state Signal.SELL 85 1).trades.getLast? =
      some { ttype := TradeType.sell, price := 85, timestamp := 1,
             profit := some (-15), reason := some ExitReason.takeProfit } := by
  rw [show c1state = _ from Bot.execute_trade_buy (Bot.init 10 (-30) 5 true) 100 0 rfl]
  rw [Bot.execute_trade_sell _ _ _ rfl]
  refine ⟨rfl, by norm_num [Bot.init], by norm_num [Bot.init], ?_, ?_⟩
  · norm_num [Bot.calculate_signals, Bot.init]
  · norm_num [Bot.init]

/-- Claim C1 as amended: when additionally the take-profit fraction is
positive (as the configuration model requires) and the entry price is
positive, a bar whose close is at most entry × (1 − stop-loss fraction) while
LONG yields SELL, and the SELL appended to the ledger carries reason Stop
Loss — never Take Profit — in both `bot/trade.py` and `Streamlit/bot.py`;
under these hypotheses the post-hoc reason re-derivation in `execute_trade`
coincides with the first-match priority reason of the decision. -/
theorem C1_stop_loss_reason (b : Bot.BotState) (sb : SBot.SBotState) (p p' t t' : ℚ)
    (hpos : b.position = Position.long) (hs : 0 < b.stop_loss_percent)
    (ht : 0 < b.take_profit_percent) (hE : 0 < b.entry_price)
    (hp : p ≤ b.entry_price * (1 - b.stop_loss_percent))
    (hpos' : sb.position = Position.long) (hs' : 0 < sb.stop_loss_percent)
    (ht' : 0 < sb.take_profit_percent) (hE' : 0 < sb.entry_price)
    (hp' : p' ≤ sb.entry_price * (1 - sb.stop_loss_percent)) :
    Bot.calculate_signals b p t = Signal.SELL ∧
    (Bot.execute_trade b Signal.SELL p t).trades.getLast? =
      some { ttype := TradeType.sell, price := p, timestamp := t,
             profit := some (p - b.entry_price),
             reason := some ExitReason.stopLoss } ∧
    SBot.calculate_signals sb p' t' = Signal.SELL ∧
    (SBot.execute_trade sb Signal.SELL p' t').trades.getLast? =
      some { ttype := TradeType.sell, price := p', timestamp := t',
             profit := some (p' - sb.entry_price),
             reason := some ExitReason.stopLoss } := by
  have hlt : p < b.entry_price * (1 + b.take_profit_percent) :=
    lt_of_le_of_lt hp (by nlinarith [mul_pos hE hs, mul_pos hE ht])
  have hlt' : p' < sb.entry_price * (1 + sb.take_profit_percent) :=
    lt_of_le_of_lt hp' (by nlinarith [mul_pos hE' hs', mul_pos hE' ht'])
  refine ⟨?_, ?_, ?_, ?_⟩
  · rw [Bot.calculate_signals_long b p t hpos, if_pos hp]
  · rw [Bot.execute_trade_sell b p t hpos, if_neg (not_le.mpr hlt), if_pos hp]
    simp [List.getLast?_concat]
  · rw [SBot.calculate_signals_long_sbot sb p' t' hpos', if_pos hp']
  · rw [SBot.execute_trade_sell_sbot sb p' t' hpos', if_neg (not_le.mpr hlt')]
    simp [List.getLast?_concat]

/-- State used in the witness for C1's amended theorem: a LONG `trade.py`
engine with positive fractions. -/
def c1wstate : Bot.BotState :=
  { stop_loss_percent := 1/1000
    take_profit_percent := 1/500
    max_hold_minutes := 5
    interval_minutes := 1
    position := Position.long
    entry_price := 100
    entry_time := 0
    data := [(0, 100)]
    buy_signals := [(0, 100)]
    sell_signals := []
    trades := [{ ttype := TradeType.buy, price := 100, timestamp := 0,
                 profit := none, reason := none }]
    is_running := true }

/-- State used in the witness for C1's amended theorem: a LONG
`Streamlit/bot.py` engine with positive fractions. -/
def c1wsb : SBot.SBotState :=
  { stop_loss_percent := 1/1000
    take_profit_percent := 1/500
    max_hold_minutes := 5
    position := Position.long
    entry_price := 100
    entry_time := 0
    data := [(0, 100)]
    buy_signals := [(0, 100)]
    sell_signals := []
    trades := [{ ttype := TradeType.buy, price := 100, timestamp := 0,
                 profit := none, reason := none }]
    is_running := true }

/-- Witness for C1's amended theorem at the concrete bar close 85 ≤ 99.9. -/
theorem C1_stop_loss_reason_witness :
    Bot.calculate_signals c1wstate 85 1 = Signal.SELL ∧
    (Bot.execute_trade c1wstate Signal.SELL 85 1).trades.getLast? =
      some { ttype := TradeType.sell, price := 85, timestamp := 1,
             profit := some (85 - c1wstate.entry_price),
             reason := some ExitReason.stopLoss } ∧
    SBot.calculate_signals c1wsb 85 1 = Signal.SELL ∧
    (SBot.execute_trade c1wsb Signal.SELL 85 1).trades.getLast? =
      some { ttype := TradeType.sell, price := 85, timestamp := 1,
             profit := some (85 - c1wsb.entry_price),
             reason := some ExitReason.stopLoss } :=
  C1_stop_loss_reason c1wstate c1wsb 85 85 1 1 rfl (by norm_num [c1wstate])
    (by norm_num [c1wstate]) (by norm_num [c1wstate]) (by norm_num [c1wstate])
    rfl (by norm_num [c1wsb]) (by norm_num [c1wsb]) (by norm_num [c1wsb])
    (by norm_num [c1wsb])

/-- State used to refute claim C3: a LONG `Streamlit/bot.py` engine, entry
price 100 at time 0, stop-loss fraction 1/1000, take-profit fraction 1/500,
max_hold_minutes 5, about to process the bar `(5, 100)`: the elapsed time is
exactly the configured boundary and no higher-priority condition matches. -/
def c3state : SBot.SBotState :=
  { stop_loss_percent := 1/1000
    take_profit_percent := 1/500
    max_hold_minutes := 5
    position := Position.long
    entry_price := 100
    entry_time := 0
    data := [(0, 100)]
    buy_signals := [(0, 100)]
    sell_signals := []
    trades := [{ ttype := TradeType.buy, price := 100, timestamp := 0,
                 profit := none, reason := none }]
    is_running := true }

/-- Counterexample to claim C3 as stated: at the exact time boundary with no
higher-priority condition matched, `Streamlit/bot.py` does fire the SELL, but
the appended trade's recorded reason is Stop Loss, not TIME_EXIT — its
`execute_trade` reason conditional has no Time Exit case. -/
theorem C3_counterexample :
    c3state.position = Position.long ∧
    (¬ (100:ℚ) ≤ c3state.entry_price * (1 - c3state.stop_loss_percent)) ∧
    (¬ (100:ℚ) ≥ c3state.entry_price * (1 + c3state.take_profit_percent)) ∧
    (5:ℚ) - c3state.entry_time ≥ c3state.max_hold_minutes ∧
    SBot.calculate_signals c3state 100 5 = Signal.SELL ∧
    (SBot.execute_trade c3state Signal.SELL 100 5).trades.getLast?.map Trade.reason =
      some (some ExitReason.stopLoss) := by
  refine ⟨rfl, by norm_num [c3state], by norm_num [c3state], by norm_num [c3state],
    ?_, ?_⟩
  · rw [SBot.calculate_signals_long_sbot _ _ _ rfl]
    norm_num [c3state]
  · rw [SBot.execute_trade_sell_sbot _ _ _ rfl]
    norm_num [c3state, List.getLast?_concat]

/-- Claim C3 as amended: for a LONG position on a bar where neither the
stop-loss nor the take-profit condition matches, the time exit fires exactly
when the elapsed time reaches the configured boundary and never strictly
before — in `bot/trade.py` the boundary is max_hold_minutes × interval_minutes
and the appended SELL carries reason Time Exit; in `Streamlit/bot.py` the
boundary is max_hold_minutes and the SELL fires at the same ≥ threshold, but
the appended trade records reason Stop Loss because its `execute_trade` has no
Time Exit case.  Below the boundary both engines HOLD. -/
theorem C3_time_exit_boundary (b : Bot.BotState) (sb : SBot.SBotState) (p p' t t' : ℚ)
    (hpos : b.position = Position.long)
    (hsl : ¬ p ≤ b.entry_price * (1 - b.stop_loss_percent))
    (htp : ¬ p ≥ b.entry_price * (1 + b.take_profit_percent))
    (hpos' : sb.position = Position.long)
    (hsl' : ¬ p' ≤ sb.entry_price * (1 - sb.stop_loss_percent))
    (htp' : ¬ p' ≥ sb.entry_price * (1 + sb.take_profit_percent)) :
    (t - b.entry_time ≥ b.max_hold_minutes * b.interval_minutes →
       Bot.calculate_signals b p t = Signal.SELL ∧
       (Bot.execute_trade b Signal.SELL p t).trades.getLast? =
         some { ttype := TradeType.sell, price := p, timestamp := t,
                profit := some (p - b.entry_price),
                reason := some ExitReason.timeExit }) ∧
    (t - b.entry_time < b.max_hold_minutes * b.interval_minutes →
       Bot.calculate_signals b p t = Signal.HOLD) ∧
    (t' - sb.entry_time ≥ sb.max_hold_minutes →
       SBot.calculate_signals sb p' t' = Signal.SELL ∧
       (SBot.execute_trade sb Signal.SELL p' t').trades.getLast? =
         some { ttype := TradeType.sell, price := p', timestamp := t',
                profit := some (p' - sb.entry_price),
                reason := some ExitReason.stopLoss }) ∧
    (t' - sb.entry_time < sb.max_hold_minutes →
       SBot.calculate_signals sb p' t' = Signal.HOLD) := by
  refine ⟨fun hge => ⟨?_, ?_⟩, fun hlt => ?_, fun hge => ⟨?_, ?_⟩, fun hlt => ?_⟩
  · rw [Bot.calculate_signals_long b p t hpos, if_neg hsl, if_neg htp, if_pos hge]
  · rw [Bot.execute_trade_sell b p t hpos, if_neg htp, if_neg hsl]
    simp [List.getLast?_concat]
  · rw [Bot.calculate_signals_long b p t hpos, if_neg hsl, if_neg htp,
      if_neg (not_le.mpr hlt)]
  · rw [SBot.calculate_signals_long_sbot sb p' t' hpos', if_neg hsl', if_neg htp',
      if_pos hge]
  · rw [SBot.execute_trade_sell_sbot sb p' t' hpos', if_neg htp']
    simp [List.getLast?_concat]
  · rw [SBot.calculate_signals_long_sbot sb p' t' hpos', if_neg hsl', if_neg htp',
      if_neg (not_le.mpr hlt)]

/-- State used in the witness for C3's amended theorem: a LONG `trade.py`
engine at the exact time boundary. -/
def c3wstate : Bot.BotState :=
  { stop_loss_percent := 1/1000
    take_profit_percent := 1/500
    max_hold_minutes := 5
    interval_minutes := 1
    position := Position.long
    entry_price := 100
    entry_time := 0
    data := [(0, 100)]
    buy_signals := [(0, 100)]
    sell_signals := []
    trades := [{ ttype := TradeType.buy, price := 100, timestamp := 0,
                 profit := none, reason := none }]
    is_running := true }

/-- Witness for C3's amended theorem: at the exact boundary bar `(5, 100)` the
`trade.py` engine sells with recorded reason Time Exit. -/
theorem C3_time_exit_boundary_witness :
    Bot.calculate_signals c3wstate 100 5 = Signal.SELL ∧
    (Bot.execute_trade c3wstate Signal.SELL 100 5).trades.getLast? =
      some { ttype := TradeType.sell, price := 100, timestamp := 5,
             profit := some (100 - c3wstate.entry_price),
             reason := some ExitReason.timeExit } :=
  (C3_time_exit_boundary c3wstate c3state 100 100 5 5 rfl
      (by norm_num [c3wstate]) (by norm_num [c3wstate]) rfl
      (by norm_num [c3state]) (by norm_num [c3state])).1
    (by norm_num [c3wstate])

/-- State used to refute claim C2: an `EnhancedStrategy` position with entry
price 100 at time 0, stop-loss 95, take-profit 105, trailing stop 99, 1%
trailing fraction and a 60-minute hold bound, processing the bar with close 90
at time 60. -/
def c2state : Enh.EnhState :=
  { entry_price := 100
    entry_time := 0
    stop_loss := 95
    take_profit := 105
    trailing_stop := 99
    trailing_percent := 1/100
    max_hold_minutes := 60 }

/-- Counterexample to claim C2 as stated: on this bar the stop-loss condition
(close 90 ≤ 95) matches, and the hold time has also reached the bound; the
first-match rule demands reason STOP_LOSS (and allows TIME_EXIT only when no
earlier condition matched), but `EnhancedStrategy.next` records Time Exit —
its hold-time check runs after the stop-loss/take-profit/trailing chain and
overwrites the chain's reason. -/
theorem C2_counterexample :
    (90:ℚ) ≤ c2state.stop_loss ∧
    (60:ℚ) - c2state.entry_time ≥ c2state.max_hold_minutes ∧
    (Enh.next c2state 90 60).2 = some ExitReason.timeExit := by
  refine ⟨by norm_num [c2state], by norm_num [c2state], ?_⟩
  norm_num [Enh.next, Enh.updateTrailing, Enh.exitReason, c2state]

/-- Claim C2 as amended: in `FixedExitStrategy` the exits are evaluated
stop-loss, take-profit, time in a first-match elif chain — stop-loss wins
whenever its threshold is breached, even if the take-profit threshold is
simultaneously breached, and Time Exit is recorded exactly when neither
earlier condition matched and the hold time reached the bound (never
otherwise).  In `EnhancedStrategy` stop-loss, take-profit and trailing stop
form a first-match chain (stop-loss again wins a simultaneous stop-loss/
take-profit breach), but the hold-time check runs after the chain and
overrides it: the recorded reason is Time Exit whenever the hold time reaches
the bound, even when an earlier condition matched. -/
theorem C2_exit_priority (ep et slp tpp mh c tm : ℚ) :
    (c ≤ ep * (1 - slp) →
       FixedExit.exitReason ep et slp tpp mh c tm = some ExitReason.stopLoss) ∧
    (¬ c ≤ ep * (1 - slp) → c ≥ ep * (1 + tpp) →
       FixedExit.exitReason ep et slp tpp mh c tm = some ExitReason.takeProfit) ∧
    (¬ c ≤ ep * (1 - slp) → ¬ c ≥ ep * (1 + tpp) → tm - et ≥ mh →
       FixedExit.exitReason ep et slp tpp mh c tm = some ExitReason.timeExit) ∧
    (¬ c ≤ ep * (1 - slp) → ¬ c ≥ ep * (1 + tpp) → ¬ tm - et ≥ mh →
       FixedExit.exitReason ep et slp tpp mh c tm = none) ∧
    (FixedExit.exitReason ep et slp tpp mh c tm = some ExitReason.timeExit →
       ¬ c ≤ ep * (1 - slp) ∧ ¬ c ≥ ep * (1 + tpp)) ∧
    (∀ s : Enh.EnhState, ∀ cp t : ℚ, t - s.entry_time ≥ s.max_hold_minutes →
       (Enh.next s cp t).2 = some ExitReason.timeExit) ∧
    (∀ s : Enh.EnhState, ∀ cp t : ℚ, ¬ t - s.entry_time ≥ s.max_hold_minutes →
       cp ≤ s.stop_loss →
       (Enh.next s cp t).2 = some ExitReason.stopLoss) := by
  refine ⟨?_, ?_, ?_, ?_, ?_, ?_, ?_⟩
  · intro h1
    unfold FixedExit.exitReason
    rw [if_pos h1]
  · intro h1 h2
    unfold FixedExit.exitReason
    rw [if_neg h1, if_pos h2]
  · intro h1 h2 h3
    unfold FixedExit.exitReason
    rw [if_neg h1, if_neg h2, if_pos h3]
  · intro h1 h2 h3
    unfold FixedExit.exitReason
    rw [if_neg h1, if_neg h2, if_neg h3]
  · intro h
    by_cases h1 : c ≤ ep * (1 - slp)
    · unfold FixedExit.exitReason at h
      rw [if_pos h1] at h
      simp at h
    · by_cases h2 : c ≥ ep * (1 + tpp)
      · unfold FixedExit.exitReason at h
        rw [if_neg h1, if_pos h2] at h
        simp at h
      · exact ⟨h1, h2⟩
  · intro s cp t ht
    simp only [Enh.next, Enh.exitReason]
    rw [if_pos ht]
  · intro s cp t ht hc
    simp only [Enh.next, Enh.exitReason]
    rw [if_neg ht, if_pos hc]

/-- Witness for C2's amended theorem: with `FixedExitStrategy`'s default
fractions, entry 100 at time 0 and the bar close 85 at time 1 the recorded
reason is Stop Loss, and `EnhancedStrategy` on the counterexample state
records Time Exit once the hold bound is reached. -/
theorem C2_exit_priority_witness :
    FixedExit.exitReason 100 0 (1/1000) (1/500) 5 85 1 = some ExitReason.stopLoss ∧
    (Enh.next c2state 90 60).2 = some ExitReason.timeExit :=
  ⟨(C2_exit_priority 100 0 (1/1000) (1/500) 5 85 1).1 (by norm_num),
   (C2_exit_priority 100 0 (1/1000) (1/500) 5 85 1).2.2.2.2.2.1 c2state 90 60
     (by norm_num [c2state])⟩

/-- Claim C5: in `EnhancedStrategy`, the trailing stop is initialized at
position open to entry_price × (1 − trailing fraction); on a bar while LONG
with current price above the entry price (prices and fraction non-negative,
per the data model), its new value is max(trailing_stop,
current_price × (1 − trailing fraction)); it never decreases on any bar; and
`next` installs the updated trailing stop and evaluates the exit conditions on
the updated value — the adjustment happens before exit evaluation on the same
bar. -/
theorem C5_trailing_stop (price t0 atr mult tp mh : ℚ) :
    (Enh.openPosition price t0 atr mult tp mh).trailing_stop = price * (1 - tp) ∧
    (∀ s : Enh.EnhState, ∀ c : ℚ, 0 ≤ s.trailing_percent → 0 ≤ c →
       c > s.entry_price →
       Enh.updateTrailing s c = max s.trailing_stop (c * (1 - s.trailing_percent))) ∧
    (∀ s : Enh.EnhState, ∀ c : ℚ, s.trailing_stop ≤ Enh.updateTrailing s c) ∧
    (∀ s : Enh.EnhState, ∀ c t : ℚ,
       s.trailing_stop ≤ (Enh.next s c t).1.trailing_stop ∧
       (Enh.next s c t).1.trailing_stop = Enh.updateTrailing s c ∧
       (Enh.next s c t).2 =
         Enh.exitReason { s with trailing_stop := Enh.updateTrailing s c } c t) := by
  refine ⟨rfl, ?_, fun s c => Enh.updateTrailing_mono s c, ?_⟩
  · intro s c htp hc hgt
    unfold Enh.updateTrailing
    by_cases h : c > s.entry_price ∧ c > s.trailing_stop
    · rw [if_pos h]
    · rw [if_neg h]
      have hnlt : ¬ s.trailing_stop < c := fun hcon => h ⟨hgt, hcon⟩
      have hle : c ≤ s.trailing_stop := not_lt.mp hnlt
      have hbound : c * (1 - s.trailing_percent) ≤ s.trailing_stop := by
        nlinarith [mul_nonneg hc htp]
      exact (max_eq_left hbound).symm
  · intro s c t
    exact ⟨Enh.updateTrailing_mono s c, rfl, rfl⟩

/-- State used in the witness for C5: an `EnhancedStrategy` position with
entry 100, trailing stop 99 and 1% trailing fraction. -/
def c5wstate : Enh.EnhState :=
  { entry_price := 100
    entry_time := 0
    stop_loss := 96
    take_profit := 104
    trailing_stop := 99
    trailing_percent := 1/100
    max_hold_minutes := 60 }

/-- Witness for C5 at the concrete favorable bar close 102 > 100. -/
theorem C5_trailing_stop_witness :
    Enh.updateTrailing c5wstate 102 =
      max c5wstate.trailing_stop (102 * (1 - c5wstate.trailing_percent)) :=
  (C5_trailing_stop 100 0 2 2 (1/100) 60).2.1 c5wstate 102
    (by norm_num [c5wstate]) (by norm_num) (by norm_num [c5wstate])

end TradeBot
